import Mathlib

/-!
Verification model of setup-python-env.js (node-easyocr).

The script is effectful JavaScript: it resolves a Python interpreter with
shell lookups, spawns subprocesses sequentially, writes and deletes one
temporary file, logs to the console, and exits with code 0 or 1.  We embed
it as a deterministic function of an Oracle describing the environment:
the results of the lookup commands, the event sequence each spawned child
emits, the platform flag, and whether the unlink call throws.  The run
produces a trace (ordered spawn list, log list, filesystem operations and
final filesystem contents) and an Outcome.  Promise settlement of the two
runners is modelled directly from the event-handler registrations in the
source: a handler not registered for an event means that event cannot
settle the promise.
-/

namespace NodeEasyOCR

/-- A spawned external command: executable plus argument list. -/
structure Cmd where
  exe : String
  args : List String
deriving DecidableEq

/-- Events a child process with inherited stdio can emit to its listeners:
a close event carrying the exit code, or a spawn-level error event. -/
inductive ChildEvent where
  | close (code : Int)
  | errorEv
deriving DecidableEq

/-- Events a child process with piped stdio can emit: data chunks on
stdout or stderr, a close event with the exit code, or a spawn-level
error event carrying a message. -/
inductive PipedEvent where
  | outData (s : String)
  | errData (s : String)
  | close (code : Int)
  | errorEv (msg : String)
deriving DecidableEq

/-- How a JavaScript promise ends up: resolved with a value, rejected
with an error message, or never settled. -/
inductive PromiseResult (α : Type) where
  | resolved (val : α)
  | rejected (msg : String)
  | pending
deriving DecidableEq

/-- The object runCommandWithOutput resolves with: exit code plus the
fully buffered stdout and stderr. -/
structure CmdOutput where
  code : Int
  stdout : String
  stderr : String
deriving DecidableEq

/-- Settlement of the promise built by runCommand (source lines 27-38).
Only a close handler is registered: a close event with nonzero code
rejects with a message carrying the code, a close event with code 0
resolves, and any other event leaves the promise as it was. -/
def runCommandSettle : List ChildEvent → PromiseResult Unit
  | [] => PromiseResult.pending
  | ChildEvent.close code :: _ =>
      if code ≠ 0 then
        PromiseResult.rejected ("Command failed with exit code " ++ toString code)
      else
        PromiseResult.resolved ()
  | ChildEvent.errorEv :: rest => runCommandSettle rest

/-- Settlement of the promise built by runCommandWithOutput (source
lines 40-62). Data events accumulate onto the stdout and stderr buffers;
a close event resolves with the code and both buffers regardless of the
code; an error event rejects with its message. -/
def runCommandWithOutputSettle (stdout stderr : String) :
    List PipedEvent → PromiseResult CmdOutput
  | [] => PromiseResult.pending
  | PipedEvent.outData s :: rest => runCommandWithOutputSettle (stdout ++ s) stderr rest
  | PipedEvent.errData s :: rest => runCommandWithOutputSettle stdout (stderr ++ s) rest
  | PipedEvent.close code :: _ => PromiseResult.resolved ⟨code, stdout, stderr⟩
  | PipedEvent.errorEv msg :: _ => PromiseResult.rejected msg

/-- Model of the JavaScript string trim method: drop whitespace from
both ends. Implemented structurally on the character list so concrete
instances evaluate. -/
def jsTrim (s : String) : String :=
  ⟨((s.data.dropWhile Char.isWhitespace).reverse.dropWhile Char.isWhitespace).reverse⟩

/-- First line of a string, as split by newline (model of
toString().split by newline, index 0, in the source). -/
def firstLine (s : String) : String := ⟨s.data.takeWhile (fun c => c ≠ '\n')⟩

/-- Prefix test on strings, via the character lists. -/
def strStartsWith (s pre : String) : Bool := pre.data.isPrefixOf s.data

/-- The final error message thrown when neither lookup finds Python. -/
def notFoundMsg : String :=
  "Python not found. Please install Python and add it to your PATH."

/-- The Windows fallback branch of getPythonPath (source lines 15-23):
run the where command, take the first output line, trim it; an empty
result or a failing command yields the not-found error. -/
def tryWhere (whereOut : Except Unit String) : Except String String :=
  match whereOut with
  | Except.error _ => Except.error notFoundMsg
  | Except.ok s =>
      if jsTrim (firstLine s) = "" then Except.error notFoundMsg
      else Except.ok (jsTrim (firstLine s))

/-- getPythonPath (source lines 5-25). The single execSync call runs the
shell command which python3-or-which python; shell semantics of the
or-operator: if which python3 exits 0 its output is used, otherwise
which python runs and its result is used. A throwing execSync or an
empty trimmed output falls back to the where lookup. -/
def getPythonPath (py3 py whereOut : Except Unit String) : Except String String :=
  let unix : Except Unit String :=
    match py3 with
    | Except.ok s => Except.ok s
    | Except.error _ => py
  match unix with
  | Except.error _ => tryWhere whereOut
  | Except.ok s =>
      if jsTrim s = "" then tryWhere whereOut
      else Except.ok (jsTrim s)

/-- One console message, tagged by the console method used. -/
inductive LogMsg where
  | log (msg : String)
  | error (msg : String)
  | warn (msg : String)
deriving DecidableEq

/-- A filesystem operation performed by the script itself. -/
inductive FsOp where
  | write (path : String)
  | unlinkAttempt (path : String)
deriving DecidableEq

/-- The observable trace of a run: spawned commands in order, console
messages in order, filesystem contents (paths present), and the
filesystem operations the script itself performed. -/
structure RunState where
  spawns : List Cmd
  logs : List LogMsg
  fs : List String
  fsOps : List FsOp
deriving DecidableEq

/-- How the whole process ends: exit with a code, or hang because the
driving promise never settles (no handler fired that could settle it). -/
inductive Outcome where
  | exit (code : Nat)
  | hang
deriving DecidableEq

/-- The environment a run executes in: results of the three lookup
commands, the platform flag, the directory containing the script
(dirname in the source), the event list each inherited-stdio spawn
emits (indexed by spawn order: 0 venv creation, 1 pip upgrade, 2-4 the
package installs), the event list of the piped model-download spawn,
and whether unlinkSync throws. -/
structure Oracle where
  py3 : Except Unit String
  py : Except Unit String
  whereOut : Except Unit String
  isWin32 : Bool
  dirname : String
  events : Nat → List ChildEvent
  pipedEvents : List PipedEvent
  unlinkThrows : Bool

/-- Model of path.join with two components. -/
def pathJoin (a b : String) : String := a ++ "/" ++ b

/-- The virtual environment directory, path.join(dirname, venv). -/
def venvDir (o : Oracle) : String := pathJoin o.dirname "venv"

/-- The temporary driver script path, alongside the script file. -/
def scriptPath (o : Oracle) : String := pathJoin o.dirname "download_models_temp.py"

/-- The Python executable inside the virtual environment, chosen by
platform (source lines 131-133). -/
def venvPython (o : Oracle) : String :=
  if o.isWin32 then pathJoin (pathJoin (venvDir o) "Scripts") "python.exe"
  else pathJoin (pathJoin (venvDir o) "bin") "python"

/-- The static ordered requirement list (source lines 115-119). -/
def requirements : List String := ["easyocr", "torch", "torchvision"]

/-- The catch block of setup (source lines 157-160): log the error and
exit with code 1. -/
def fatal (m : String) (st : RunState) : RunState × Outcome :=
  ({ st with logs := st.logs ++
      [LogMsg.error ("Error setting up Python environment: " ++ m)] },
   Outcome.exit 1)

/-- The unlink attempt in the finally block (source lines 98-103): try
to delete the temporary script, silently ignoring a failure; when the
unlink throws, the file stays on disk. -/
def unlinkTemp (o : Oracle) (st : RunState) : RunState :=
  { st with
    fsOps := st.fsOps ++ [FsOp.unlinkAttempt (scriptPath o)],
    fs := if o.unlinkThrows then st.fs else st.fs.erase (scriptPath o) }

/-- downloadEasyOCRModels (source lines 64-109). Logs the banner, writes
the temporary driver script, runs it with the captured-output runner;
on a nonzero exit logs the stderr and raises a failure that the local
catch downgrades to a warning; the finally block always attempts the
unlink. The Bool is true when the inner promise never settles. -/
def downloadEasyOCRModels (o : Oracle) (venvPy : String) (st0 : RunState) :
    RunState × Bool :=
  let st1 : RunState := { st0 with logs := st0.logs ++
      [LogMsg.log "\nDownloading EasyOCR models...",
       LogMsg.log "This may take a few minutes on first run..."] }
  let st2 : RunState := { st1 with
      fsOps := st1.fsOps ++ [FsOp.write (scriptPath o)],
      fs := st1.fs ++ [scriptPath o] }
  let st3 : RunState := { st2 with spawns := st2.spawns ++ [⟨venvPy, [scriptPath o]⟩] }
  match runCommandWithOutputSettle "" "" o.pipedEvents with
  | PromiseResult.pending => (st3, true)
  | PromiseResult.rejected m =>
      let st4 := unlinkTemp o st3
      ({ st4 with logs := st4.logs ++
          [LogMsg.error ("Error downloading EasyOCR models: " ++ m),
           LogMsg.warn "Models will be downloaded automatically on first use."] },
       false)
  | PromiseResult.resolved r =>
      if r.code ≠ 0 then
        let st4 : RunState := { st3 with logs := st3.logs ++
            [LogMsg.error ("Error downloading models: " ++ r.stderr)] }
        let st5 := unlinkTemp o st4
        ({ st5 with logs := st5.logs ++
            [LogMsg.error
              "Error downloading EasyOCR models: Failed to download EasyOCR models",
             LogMsg.warn "Models will be downloaded automatically on first use."] },
         false)
      else
        let st4 : RunState := { st3 with logs := st3.logs ++
            [LogMsg.log r.stdout, LogMsg.log "EasyOCR models setup complete!"] }
        (unlinkTemp o st4, false)

/-- Outcome of the install for-loop (source lines 140-143): all installs
resolved, one rejected with a message, or one never settled. -/
inductive LoopExit where
  | done
  | failed (msg : String)
  | hung
deriving DecidableEq

/-- The for-loop over requirements (source lines 140-143): log the
install message, spawn pip install for the package, await it; a
rejection aborts the loop, carrying the message to the setup catch. The
index threads the spawn order. -/
def installLoop (o : Oracle) : Nat → List String → RunState → RunState × LoopExit
  | _, [], st => (st, LoopExit.done)
  | idx, req :: rest, st =>
      let st1 : RunState := { st with
        logs := st.logs ++ [LogMsg.log ("Installing " ++ req ++ "...")],
        spawns := st.spawns ++ [⟨venvPython o, ["-m", "pip", "install", req]⟩] }
      match runCommandSettle (o.events idx) with
      | PromiseResult.pending => (st1, LoopExit.hung)
      | PromiseResult.rejected m => (st1, LoopExit.failed m)
      | PromiseResult.resolved _ => installLoop o (idx + 1) rest st1

/-- setup (source lines 121-161). Sequentially: create the virtual
environment, upgrade pip, install the requirements, run the model
download, print the final messages; any rejection of an awaited install
step reaches the catch which logs it and exits 1. A successful venv
creation subprocess puts the venv directory on disk. -/
def runSetup (o : Oracle) (pythonPath : String) (st0 : RunState) : RunState × Outcome :=
  let st1 : RunState := { st0 with logs := st0.logs ++
      [LogMsg.log "Setting up Python environment...",
       LogMsg.log ("Using Python at: " ++ pythonPath),
       LogMsg.log "Creating virtual environment..."] }
  let st2 : RunState := { st1 with
      spawns := st1.spawns ++ [⟨pythonPath, ["-m", "venv", venvDir o]⟩] }
  match runCommandSettle (o.events 0) with
  | PromiseResult.pending => (st2, Outcome.hang)
  | PromiseResult.rejected m => fatal m st2
  | PromiseResult.resolved _ =>
      let st3 : RunState := { st2 with fs := st2.fs ++ [venvDir o] }
      let st4 : RunState := { st3 with
          logs := st3.logs ++ [LogMsg.log "Upgrading pip..."],
          spawns := st3.spawns ++
            [⟨venvPython o, ["-m", "pip", "install", "--upgrade", "pip"]⟩] }
      match runCommandSettle (o.events 1) with
      | PromiseResult.pending => (st4, Outcome.hang)
      | PromiseResult.rejected m => fatal m st4
      | PromiseResult.resolved _ =>
          match installLoop o 2 requirements st4 with
          | (st5, LoopExit.hung) => (st5, Outcome.hang)
          | (st5, LoopExit.failed m) => fatal m st5
          | (st5, LoopExit.done) =>
              let st6 : RunState := { st5 with logs := st5.logs ++
                  [LogMsg.log "Python dependencies installation complete!"] }
              match downloadEasyOCRModels o (venvPython o) st6 with
              | (st7, true) => (st7, Outcome.hang)
              | (st7, false) =>
                  let st8 : RunState := { st7 with logs := st7.logs ++
                      [LogMsg.log "\nPython environment setup complete!",
                       LogMsg.log "To activate the virtual environment, run:",
                       LogMsg.log
                         (if o.isWin32 then
                            pathJoin (pathJoin (venvDir o) "Scripts") "activate.bat"
                          else
                            "source " ++ pathJoin (pathJoin (venvDir o) "bin") "activate")] }
                  (st8, Outcome.exit 0)

/-- The empty starting trace. -/
def initState : RunState := ⟨[], [], [], []⟩

/-- The whole script (source lines 111-167): resolve the interpreter; a
resolution failure is logged and exits 1 before anything is spawned;
otherwise run setup. -/
def runScript (o : Oracle) : RunState × Outcome :=
  match getPythonPath o.py3 o.py o.whereOut with
  | Except.error m =>
      ({ initState with logs := [LogMsg.error ("Error: " ++ m)] }, Outcome.exit 1)
  | Except.ok p => runSetup o p initState

/-! Helper lemmas. -/

/-- Prepending the empty string is the identity. -/
theorem str_nil_append (s : String) : "" ++ s = s :=
  String.ext (by simp [String.data_append])

/-- A list of error events alone never settles the runCommand promise:
no handler for the error event is registered. -/
theorem settle_pending_of_errors (evs : List ChildEvent)
    (h : ∀ e ∈ evs, e = ChildEvent.errorEv) :
    runCommandSettle evs = PromiseResult.pending := by
  induction evs with
  | nil => rfl
  | cons e rest ih =>
      have he := h e (by simp)
      subst he
      simp only [runCommandSettle]
      exact ih (fun x hx => h x (by simp [hx]))

/-- Whether a piped event is a data chunk. -/
def isData : PipedEvent → Bool
  | PipedEvent.outData _ => true
  | PipedEvent.errData _ => true
  | PipedEvent.close _ => false
  | PipedEvent.errorEv _ => false

/-- Concatenation of all stdout chunks in an event list. -/
def outConcat : List PipedEvent → String
  | [] => ""
  | PipedEvent.outData s :: rest => s ++ outConcat rest
  | PipedEvent.errData _ :: rest => outConcat rest
  | PipedEvent.close _ :: rest => outConcat rest
  | PipedEvent.errorEv _ :: rest => outConcat rest

/-- Concatenation of all stderr chunks in an event list. -/
def errConcat : List PipedEvent → String
  | [] => ""
  | PipedEvent.outData _ :: rest => errConcat rest
  | PipedEvent.errData s :: rest => s ++ errConcat rest
  | PipedEvent.close _ :: rest => errConcat rest
  | PipedEvent.errorEv _ :: rest => errConcat rest

/-- Data chunks followed by a close event resolve the captured-output
promise with the accumulated buffers and the close code. -/
theorem settle_data_close (a b : String) (pre : List PipedEvent) (c : Int)
    (rest : List PipedEvent) (hpre : ∀ e ∈ pre, isData e = true) :
    runCommandWithOutputSettle a b (pre ++ PipedEvent.close c :: rest) =
      PromiseResult.resolved ⟨c, a ++ outConcat pre, b ++ errConcat pre⟩ := by
  induction pre generalizing a b with
  | nil => simp [runCommandWithOutputSettle, outConcat, errConcat]
  | cons e tail ih =>
      cases e with
      | outData s =>
          have h2 := ih (a ++ s) b (fun x hx => hpre x (by simp [hx]))
          simp only [List.cons_append, runCommandWithOutputSettle, outConcat, errConcat,
            List.append_eq]
          rw [h2, String.append_assoc]
      | errData s =>
          have h2 := ih a (b ++ s) (fun x hx => hpre x (by simp [hx]))
          simp only [List.cons_append, runCommandWithOutputSettle, outConcat, errConcat,
            List.append_eq]
          rw [h2, String.append_assoc]
      | close c2 =>
          have := hpre (PipedEvent.close c2) (by simp)
          simp [isData] at this
      | errorEv m2 =>
          have := hpre (PipedEvent.errorEv m2) (by simp)
          simp [isData] at this

/-- The captured-output promise rejects only through an error event. -/
theorem rejected_only_on_errorEv (a b : String) (evs : List PipedEvent) (m : String)
    (h : runCommandWithOutputSettle a b evs = PromiseResult.rejected m) :
    PipedEvent.errorEv m ∈ evs := by
  induction evs generalizing a b with
  | nil => simp [runCommandWithOutputSettle] at h
  | cons e tail ih =>
      cases e with
      | outData s =>
          simp only [runCommandWithOutputSettle] at h
          exact List.mem_cons_of_mem _ (ih _ _ h)
      | errData s =>
          simp only [runCommandWithOutputSettle] at h
          exact List.mem_cons_of_mem _ (ih _ _ h)
      | close c => simp [runCommandWithOutputSettle] at h
      | errorEv m2 =>
          simp only [runCommandWithOutputSettle, PromiseResult.rejected.injEq] at h
          simp [h]

/-! Claim theorems. -/

/-- C5: for every invocation of the inherited-stdio runner, once the
child closes with code c the promise resolves exactly when c is 0, and
otherwise rejects with an error message carrying that exit code. -/
theorem runCommand_resolves_iff_zero (c : Int) (rest : List ChildEvent) :
    runCommandSettle (ChildEvent.close c :: rest) =
      (if c = 0 then PromiseResult.resolved ()
       else PromiseResult.rejected ("Command failed with exit code " ++ toString c)) := by
  by_cases h : c = 0 <;> simp [runCommandSettle, h]

/-- C10: the inherited-stdio runner promise settles only on the close
event: spawn-level error events alone leave it pending, and in the full
run an error-only first spawn makes the script hang rather than take
the fatal exit-code-1 path. -/
theorem spawn_error_leaves_promise_pending (errs : List ChildEvent) (o : Oracle)
    (p : String)
    (herrs : ∀ e ∈ errs, e = ChildEvent.errorEv)
    (hp : getPythonPath o.py3 o.py o.whereOut = Except.ok p)
    (h0 : ∀ e ∈ o.events 0, e = ChildEvent.errorEv) :
    runCommandSettle errs = PromiseResult.pending ∧
    (runScript o).2 = Outcome.hang ∧ (runScript o).2 ≠ Outcome.exit 1 := by
  have hpend := settle_pending_of_errors (o.events 0) h0
  refine ⟨settle_pending_of_errors errs herrs, ?_, ?_⟩ <;>
    simp [runScript, hp, runSetup, hpend]

/-- Oracle for a run whose first spawn emits only a spawn-level error. -/
def oracleSpawnError : Oracle :=
  { py3 := Except.ok "/usr/bin/python3"
    py := Except.error ()
    whereOut := Except.error ()
    isWin32 := false
    dirname := "/app"
    events := fun _ => [ChildEvent.errorEv]
    pipedEvents := []
    unlinkThrows := false }

/-- Witness for C10 at a concrete oracle. -/
theorem spawn_error_leaves_promise_pending_witness :
    runCommandSettle [ChildEvent.errorEv] = PromiseResult.pending ∧
    (runScript oracleSpawnError).2 = Outcome.hang ∧
    (runScript oracleSpawnError).2 ≠ Outcome.exit 1 :=
  spawn_error_leaves_promise_pending [ChildEvent.errorEv] oracleSpawnError
    "/usr/bin/python3" (by decide) rfl (by decide)

/-- C6: the captured-output runner resolves with the exit code and the
fully buffered stdout and stderr regardless of the exit code, and its
promise rejects only when a spawn-level error event occurred. -/
theorem runCommandWithOutput_always_resolves
    (pre : List PipedEvent) (c : Int) (rest evs : List PipedEvent) (m : String)
    (hpre : ∀ e ∈ pre, isData e = true) :
    runCommandWithOutputSettle "" "" (pre ++ PipedEvent.close c :: rest) =
      PromiseResult.resolved ⟨c, outConcat pre, errConcat pre⟩ ∧
    (runCommandWithOutputSettle "" "" evs = PromiseResult.rejected m →
      PipedEvent.errorEv m ∈ evs) := by
  constructor
  · have h2 := settle_data_close "" "" pre c rest hpre
    rw [str_nil_append, str_nil_append] at h2
    exact h2
  · exact rejected_only_on_errorEv "" "" evs m

/-- Witness for C6 at concrete event lists. -/
theorem runCommandWithOutput_always_resolves_witness :
    runCommandWithOutputSettle "" ""
        ([PipedEvent.outData "a", PipedEvent.errData "b"] ++ [PipedEvent.close 3]) =
      PromiseResult.resolved
        ⟨3, outConcat [PipedEvent.outData "a", PipedEvent.errData "b"],
            errConcat [PipedEvent.outData "a", PipedEvent.errData "b"]⟩ ∧
    (runCommandWithOutputSettle "" "" [PipedEvent.errorEv "x"] =
        PromiseResult.rejected "x" →
      PipedEvent.errorEv "x" ∈ [PipedEvent.errorEv "x"]) :=
  runCommandWithOutput_always_resolves [PipedEvent.outData "a", PipedEvent.errData "b"]
    3 [] [PipedEvent.errorEv "x"] "x" (by decide)

/-- C1: if the installation step at position k (0 venv creation, 1 pip
upgrade, 2-4 the package installs) rejects while all earlier ones
resolved, then no later installation step is spawned (exactly k+1
spawns happened), the error is logged, and the process exits with
code 1. -/
theorem install_failure_is_fatal (o : Oracle) (p : String) (k : Nat) (m : String)
    (hp : getPythonPath o.py3 o.py o.whereOut = Except.ok p)
    (hk : k < 5)
    (hprev : ∀ j, j < k → runCommandSettle (o.events j) = PromiseResult.resolved ())
    (hfail : runCommandSettle (o.events k) = PromiseResult.rejected m) :
    (runScript o).1.spawns.length = k + 1 ∧
    LogMsg.error ("Error setting up Python environment: " ++ m) ∈ (runScript o).1.logs ∧
    (runScript o).2 = Outcome.exit 1 := by
  interval_cases k
  · simp [runScript, hp, runSetup, hfail, fatal, initState]
  · have e0 := hprev 0 (by omega)
    simp [runScript, hp, runSetup, e0, hfail, fatal, initState]
  · have e0 := hprev 0 (by omega)
    have e1 := hprev 1 (by omega)
    simp [runScript, hp, runSetup, e0, e1, requirements, installLoop, hfail, fatal,
      initState]
  · have e0 := hprev 0 (by omega)
    have e1 := hprev 1 (by omega)
    have e2 := hprev 2 (by omega)
    simp [runScript, hp, runSetup, e0, e1, e2, requirements, installLoop, hfail, fatal,
      initState]
  · have e0 := hprev 0 (by omega)
    have e1 := hprev 1 (by omega)
    have e2 := hprev 2 (by omega)
    have e3 := hprev 3 (by omega)
    simp [runScript, hp, runSetup, e0, e1, e2, e3, requirements, installLoop, hfail,
      fatal, initState]

/-- Oracle for a run where every lookup and spawn succeeds except the
install of torch (spawn index 3), which exits with code 1. -/
def oracleTorchFails : Oracle :=
  { py3 := Except.ok "/usr/bin/python3"
    py := Except.error ()
    whereOut := Except.error ()
    isWin32 := false
    dirname := "/app"
    events := fun j => if j = 3 then [ChildEvent.close 1] else [ChildEvent.close 0]
    pipedEvents := [PipedEvent.close 0]
    unlinkThrows := false }

/-- Witness for C1: the torch install fails, so exactly 4 spawns
happened, the error is logged, and the run exits 1. -/
theorem install_failure_is_fatal_witness :
    (runScript oracleTorchFails).1.spawns.length = 3 + 1 ∧
    LogMsg.error ("Error setting up Python environment: " ++
        ("Command failed with exit code " ++ toString (1 : Int))) ∈
      (runScript oracleTorchFails).1.logs ∧
    (runScript oracleTorchFails).2 = Outcome.exit 1 :=
  install_failure_is_fatal oracleTorchFails "/usr/bin/python3" 3
    ("Command failed with exit code " ++ toString (1 : Int))
    rfl (by omega) (by decide) (by decide)

/-- C2: when the interpreter resolves and all five installation spawns
succeed, a nonzero exit of the model-download driver is caught locally:
its stderr is logged, a warning is logged, the final setup-complete
message is still printed, and the process exits with code 0. -/
theorem model_download_failure_nonfatal (o : Oracle) (p : String) (r : CmdOutput)
    (hp : getPythonPath o.py3 o.py o.whereOut = Except.ok p)
    (hall : ∀ j, j < 5 → runCommandSettle (o.events j) = PromiseResult.resolved ())
    (hdl : runCommandWithOutputSettle "" "" o.pipedEvents = PromiseResult.resolved r)
    (hcode : r.code ≠ 0) :
    (runScript o).2 = Outcome.exit 0 ∧
    LogMsg.error ("Error downloading models: " ++ r.stderr) ∈ (runScript o).1.logs ∧
    LogMsg.warn "Models will be downloaded automatically on first use." ∈
      (runScript o).1.logs ∧
    LogMsg.log "\nPython environment setup complete!" ∈ (runScript o).1.logs := by
  have e0 := hall 0 (by omega)
  have e1 := hall 1 (by omega)
  have e2 := hall 2 (by omega)
  have e3 := hall 3 (by omega)
  have e4 := hall 4 (by omega)
  simp [runScript, hp, runSetup, e0, e1, e2, e3, e4, requirements, installLoop,
    downloadEasyOCRModels, hdl, hcode, unlinkTemp, initState]

/-- Oracle for a run where every installation spawn succeeds but the
model-download driver exits with code 1 after writing to stderr. -/
def oracleDownloadFails : Oracle :=
  { py3 := Except.ok "/usr/bin/python3"
    py := Except.error ()
    whereOut := Except.error ()
    isWin32 := false
    dirname := "/app"
    events := fun _ => [ChildEvent.close 0]
    pipedEvents := [PipedEvent.errData "boom", PipedEvent.close 1]
    unlinkThrows := false }

/-- Witness for C2 at a concrete oracle. -/
theorem model_download_failure_nonfatal_witness :
    (runScript oracleDownloadFails).2 = Outcome.exit 0 ∧
    LogMsg.error ("Error downloading models: " ++ "boom") ∈
      (runScript oracleDownloadFails).1.logs ∧
    LogMsg.warn "Models will be downloaded automatically on first use." ∈
      (runScript oracleDownloadFails).1.logs ∧
    LogMsg.log "\nPython environment setup complete!" ∈
      (runScript oracleDownloadFails).1.logs :=
  model_download_failure_nonfatal oracleDownloadFails "/usr/bin/python3"
    ⟨1, "", "boom"⟩ rfl (by decide) (by decide) (by decide)

/-- C9: when the venv creation succeeded and a later installation step
at position k rejects, the run exits with code 1, the script itself
performed no filesystem operation (in particular no rollback deletion),
and the virtual environment directory is still on disk. -/
theorem no_rollback_on_fatal_failure (o : Oracle) (p : String) (k : Nat) (m : String)
    (hp : getPythonPath o.py3 o.py o.whereOut = Except.ok p)
    (hk1 : 1 ≤ k) (hk : k < 5)
    (hprev : ∀ j, j < k → runCommandSettle (o.events j) = PromiseResult.resolved ())
    (hfail : runCommandSettle (o.events k) = PromiseResult.rejected m) :
    (runScript o).2 = Outcome.exit 1 ∧
    (runScript o).1.fsOps = [] ∧
    venvDir o ∈ (runScript o).1.fs := by
  interval_cases k
  · have e0 := hprev 0 (by omega)
    simp [runScript, hp, runSetup, e0, hfail, fatal, initState]
  · have e0 := hprev 0 (by omega)
    have e1 := hprev 1 (by omega)
    simp [runScript, hp, runSetup, e0, e1, requirements, installLoop, hfail, fatal,
      initState]
  · have e0 := hprev 0 (by omega)
    have e1 := hprev 1 (by omega)
    have e2 := hprev 2 (by omega)
    simp [runScript, hp, runSetup, e0, e1, e2, requirements, installLoop, hfail, fatal,
      initState]
  · have e0 := hprev 0 (by omega)
    have e1 := hprev 1 (by omega)
    have e2 := hprev 2 (by omega)
    have e3 := hprev 3 (by omega)
    simp [runScript, hp, runSetup, e0, e1, e2, e3, requirements, installLoop, hfail,
      fatal, initState]

/-- Witness for C9: the torch install (third of the three package
installs being the next one) fails; the venv directory is still
present, nothing was rolled back, and the run exits 1. -/
theorem no_rollback_on_fatal_failure_witness :
    (runScript oracleTorchFails).2 = Outcome.exit 1 ∧
    (runScript oracleTorchFails).1.fsOps = [] ∧
    venvDir oracleTorchFails ∈ (runScript oracleTorchFails).1.fs :=
  no_rollback_on_fatal_failure oracleTorchFails "/usr/bin/python3" 3
    ("Command failed with exit code " ++ toString (1 : Int))
    rfl (by omega) (by omega) (by decide) (by decide)

/-- The temporary script path differs from the venv directory path. -/
theorem scriptPath_ne_venvDir (o : Oracle) : scriptPath o ≠ venvDir o := by
  intro h
  have h0 := congrArg String.data h
  simp only [scriptPath, venvDir, pathJoin, String.data_append, List.append_assoc] at h0
  have h1 := List.append_cancel_left h0
  have h2 := List.append_cancel_left h1
  exact absurd (String.ext h2) (by decide)

/-- C3 (amended): in a run that reaches the model-download step and
whose driver promise settles, the deletion of the temporary script is
attempted on every exit path (the only filesystem operations of the
script are the write of the temporary file followed by the unlink
attempt), the run still exits 0 whether or not the unlink throws, and
when the unlink itself succeeds the file is no longer on disk. -/
theorem temp_file_cleanup (o : Oracle) (p : String)
    (hp : getPythonPath o.py3 o.py o.whereOut = Except.ok p)
    (hall : ∀ j, j < 5 → runCommandSettle (o.events j) = PromiseResult.resolved ())
    (hdl : runCommandWithOutputSettle "" "" o.pipedEvents ≠ PromiseResult.pending) :
    (runScript o).1.fsOps =
      [FsOp.write (scriptPath o), FsOp.unlinkAttempt (scriptPath o)] ∧
    (runScript o).2 = Outcome.exit 0 ∧
    (o.unlinkThrows = false → scriptPath o ∉ (runScript o).1.fs) := by
  have e0 := hall 0 (by omega)
  have e1 := hall 1 (by omega)
  have e2 := hall 2 (by omega)
  have e3 := hall 3 (by omega)
  have e4 := hall 4 (by omega)
  have hne := scriptPath_ne_venvDir o
  have hbeq : (venvDir o == scriptPath o) = false :=
    beq_eq_false_iff_ne.mpr (Ne.symm hne)
  cases hdlv : runCommandWithOutputSettle "" "" o.pipedEvents with
  | pending => exact absurd hdlv hdl
  | rejected m =>
      simp [runScript, hp, runSetup, e0, e1, e2, e3, e4, requirements, installLoop,
        downloadEasyOCRModels, hdlv, unlinkTemp, initState, List.erase_cons, hbeq, hne]
      intro h
      simp [h, hne]
  | resolved r =>
      by_cases hc : r.code = 0
      · simp [runScript, hp, runSetup, e0, e1, e2, e3, e4, requirements, installLoop,
          downloadEasyOCRModels, hdlv, hc, unlinkTemp, initState, List.erase_cons,
          hbeq, hne]
        intro h
        simp [h, hne]
      · simp [runScript, hp, runSetup, e0, e1, e2, e3, e4, requirements, installLoop,
          downloadEasyOCRModels, hdlv, hc, unlinkTemp, initState, List.erase_cons,
          hbeq, hne]
        intro h
        simp [h, hne]

/-- Oracle for a fully successful run. -/
def oracleAllOk : Oracle :=
  { py3 := Except.ok "/usr/bin/python3"
    py := Except.error ()
    whereOut := Except.error ()
    isWin32 := false
    dirname := "/app"
    events := fun _ => [ChildEvent.close 0]
    pipedEvents := [PipedEvent.outData "ok", PipedEvent.close 0]
    unlinkThrows := false }

/-- Witness for the amended C3 at a concrete oracle. -/
theorem temp_file_cleanup_witness :
    (runScript oracleAllOk).1.fsOps =
      [FsOp.write (scriptPath oracleAllOk), FsOp.unlinkAttempt (scriptPath oracleAllOk)] ∧
    (runScript oracleAllOk).2 = Outcome.exit 0 ∧
    (oracleAllOk.unlinkThrows = false →
      scriptPath oracleAllOk ∉ (runScript oracleAllOk).1.fs) :=
  temp_file_cleanup oracleAllOk "/usr/bin/python3" rfl (by decide) (by decide)

/-- Oracle for a run where everything succeeds but the unlink of the
temporary script throws (for instance a permission error). -/
def oracleUnlinkThrows : Oracle :=
  { py3 := Except.ok "/usr/bin/python3"
    py := Except.error ()
    whereOut := Except.error ()
    isWin32 := false
    dirname := "/app"
    events := fun _ => [ChildEvent.close 0]
    pipedEvents := [PipedEvent.close 0]
    unlinkThrows := true }

/-- Counterexample to C3 as stated: when the unlink itself throws, the
deletion failure is silently ignored (the run still completes with exit
code 0 and the unlink was attempted), but the temporary driver script
is still on disk after the step completes. -/
theorem temp_file_left_when_unlink_throws :
    (runScript oracleUnlinkThrows).2 = Outcome.exit 0 ∧
    FsOp.unlinkAttempt (scriptPath oracleUnlinkThrows) ∈
      (runScript oracleUnlinkThrows).1.fsOps ∧
    scriptPath oracleUnlinkThrows ∈ (runScript oracleUnlinkThrows).1.fs := by
  decide

/-- C8: in a run where every installation step resolves and the driver
promise settles, the spawned subprocesses are exactly, in order: venv
creation, pip upgrade, the installs of easyocr, torch and torchvision,
and the model-download driver. Moreover each step is awaited before the
next: in any run whose step k never settles, only k+1 subprocesses were
ever spawned (the model is single threaded, so no two subprocesses run
concurrently by construction). -/
theorem steps_sequential_fixed_order (o o2 : Oracle) (p p2 : String) (k : Nat)
    (hp : getPythonPath o.py3 o.py o.whereOut = Except.ok p)
    (hall : ∀ j, j < 5 → runCommandSettle (o.events j) = PromiseResult.resolved ())
    (hdl : runCommandWithOutputSettle "" "" o.pipedEvents ≠ PromiseResult.pending)
    (hp2 : getPythonPath o2.py3 o2.py o2.whereOut = Except.ok p2)
    (hk : k < 5)
    (hprev : ∀ j, j < k → runCommandSettle (o2.events j) = PromiseResult.resolved ())
    (hpend : runCommandSettle (o2.events k) = PromiseResult.pending) :
    (runScript o).1.spawns =
      [⟨p, ["-m", "venv", venvDir o]⟩,
       ⟨venvPython o, ["-m", "pip", "install", "--upgrade", "pip"]⟩,
       ⟨venvPython o, ["-m", "pip", "install", "easyocr"]⟩,
       ⟨venvPython o, ["-m", "pip", "install", "torch"]⟩,
       ⟨venvPython o, ["-m", "pip", "install", "torchvision"]⟩,
       ⟨venvPython o, [scriptPath o]⟩] ∧
    ((runScript o2).1.spawns.length = k + 1 ∧ (runScript o2).2 = Outcome.hang) := by
  have e0 := hall 0 (by omega)
  have e1 := hall 1 (by omega)
  have e2 := hall 2 (by omega)
  have e3 := hall 3 (by omega)
  have e4 := hall 4 (by omega)
  constructor
  · cases hdlv : runCommandWithOutputSettle "" "" o.pipedEvents with
    | pending => exact absurd hdlv hdl
    | rejected m =>
        simp [runScript, hp, runSetup, e0, e1, e2, e3, e4, requirements, installLoop,
          downloadEasyOCRModels, hdlv, unlinkTemp, initState]
    | resolved r =>
        by_cases hc : r.code = 0 <;>
          simp [runScript, hp, runSetup, e0, e1, e2, e3, e4, requirements, installLoop,
            downloadEasyOCRModels, hdlv, hc, unlinkTemp, initState]
  · interval_cases k
    · simp [runScript, hp2, runSetup, hpend, initState]
    · have f0 := hprev 0 (by omega)
      simp [runScript, hp2, runSetup, f0, hpend, initState]
    · have f0 := hprev 0 (by omega)
      have f1 := hprev 1 (by omega)
      simp [runScript, hp2, runSetup, f0, f1, requirements, installLoop, hpend,
        initState]
    · have f0 := hprev 0 (by omega)
      have f1 := hprev 1 (by omega)
      have f2 := hprev 2 (by omega)
      simp [runScript, hp2, runSetup, f0, f1, f2, requirements, installLoop, hpend,
        initState]
    · have f0 := hprev 0 (by omega)
      have f1 := hprev 1 (by omega)
      have f2 := hprev 2 (by omega)
      have f3 := hprev 3 (by omega)
      simp [runScript, hp2, runSetup, f0, f1, f2, f3, requirements, installLoop, hpend,
        initState]

/-- Oracle for a run whose first spawn never settles. -/
def oracleFirstHangs : Oracle :=
  { py3 := Except.ok "/usr/bin/python3"
    py := Except.error ()
    whereOut := Except.error ()
    isWin32 := false
    dirname := "/app"
    events := fun _ => []
    pipedEvents := []
    unlinkThrows := false }

/-- Witness for C8 at concrete oracles. -/
theorem steps_sequential_fixed_order_witness :
    (runScript oracleAllOk).1.spawns =
      [⟨"/usr/bin/python3", ["-m", "venv", venvDir oracleAllOk]⟩,
       ⟨venvPython oracleAllOk, ["-m", "pip", "install", "--upgrade", "pip"]⟩,
       ⟨venvPython oracleAllOk, ["-m", "pip", "install", "easyocr"]⟩,
       ⟨venvPython oracleAllOk, ["-m", "pip", "install", "torch"]⟩,
       ⟨venvPython oracleAllOk, ["-m", "pip", "install", "torchvision"]⟩,
       ⟨venvPython oracleAllOk, [scriptPath oracleAllOk]⟩] ∧
    ((runScript oracleFirstHangs).1.spawns.length = 0 + 1 ∧
     (runScript oracleFirstHangs).2 = Outcome.hang) :=
  steps_sequential_fixed_order oracleAllOk oracleFirstHangs "/usr/bin/python3"
    "/usr/bin/python3" 0 rfl (by decide) (by decide) rfl (by omega) (by decide) rfl

/-- A joined path starts with its directory component. -/
theorem strStartsWith_pathJoin (a b : String) :
    strStartsWith (pathJoin a b) (a ++ "/") = true := by
  simp only [strStartsWith, pathJoin, String.data_append]
  rw [List.isPrefixOf_iff_prefix]
  exact List.prefix_append _ _

/-- Oracle for a run of the script installed at /opt/app; the invoking
process may have any current working directory, for instance
/home/user. -/
def oracleScriptDir : Oracle :=
  { py3 := Except.ok "/usr/bin/python3"
    py := Except.error ()
    whereOut := Except.error ()
    isWin32 := false
    dirname := "/opt/app"
    events := fun _ => [ChildEvent.close 0]
    pipedEvents := [PipedEvent.close 0]
    unlinkThrows := false }

/-- Counterexample to C4 as stated: with the script installed at
/opt/app and the invoking process running from /home/user, the venv
creation subprocess targets /opt/app/venv, which is not under the
working directory /home/user. -/
theorem venv_not_under_cwd :
    (runScript oracleScriptDir).1.spawns.head? =
      some ⟨"/usr/bin/python3", ["-m", "venv", "/opt/app/venv"]⟩ ∧
    strStartsWith "/opt/app/venv" "/home/user" = false := by
  decide

/-- C4 (amended): the virtual-environment directory tree is created
under the directory containing the script (dirname), not under the
working directory of the invoking process, and the one temporary file
is written and deleted alongside the script: every filesystem operation
of the run touches only the temporary path under dirname. -/
theorem venv_and_temp_under_script_dir (o : Oracle) (p : String)
    (hp : getPythonPath o.py3 o.py o.whereOut = Except.ok p) :
    (runScript o).1.spawns.head? =
      some ⟨p, ["-m", "venv", pathJoin o.dirname "venv"]⟩ ∧
    strStartsWith (pathJoin o.dirname "venv") (o.dirname ++ "/") = true ∧
    (∀ op ∈ (runScript o).1.fsOps,
      op = FsOp.write (pathJoin o.dirname "download_models_temp.py") ∨
      op = FsOp.unlinkAttempt (pathJoin o.dirname "download_models_temp.py")) ∧
    strStartsWith (pathJoin o.dirname "download_models_temp.py")
      (o.dirname ++ "/") = true := by
  have hsw1 := strStartsWith_pathJoin o.dirname "venv"
  have hsw2 := strStartsWith_pathJoin o.dirname "download_models_temp.py"
  simp only [runScript, hp, runSetup, requirements, installLoop,
    downloadEasyOCRModels, unlinkTemp, fatal, initState, venvDir, scriptPath]
  cases h0 : runCommandSettle (o.events 0) with
  | pending => simp [hsw1, hsw2]
  | rejected m => simp [hsw1, hsw2]
  | resolved u0 =>
  cases h1 : runCommandSettle (o.events 1) with
  | pending => simp [hsw1, hsw2]
  | rejected m => simp [hsw1, hsw2]
  | resolved u1 =>
  cases h2 : runCommandSettle (o.events 2) with
  | pending => simp [hsw1, hsw2]
  | rejected m => simp [hsw1, hsw2]
  | resolved u2 =>
  cases h3 : runCommandSettle (o.events (2 + 1)) with
  | pending => simp [hsw1, hsw2]
  | rejected m => simp [hsw1, hsw2]
  | resolved u3 =>
  cases h4 : runCommandSettle (o.events (2 + 1 + 1)) with
  | pending => simp [hsw1, hsw2]
  | rejected m => simp [hsw1, hsw2]
  | resolved u4 =>
  cases hd : runCommandWithOutputSettle "" "" o.pipedEvents with
  | pending => simp [hsw1, hsw2]
  | rejected m => simp [hsw1, hsw2]
  | resolved r => by_cases hc : r.code = 0 <;> simp [hc, hsw1, hsw2]

/-- Witness for the amended C4 at a concrete oracle. -/
theorem venv_and_temp_under_script_dir_witness :
    (runScript oracleScriptDir).1.spawns.head? =
      some ⟨"/usr/bin/python3", ["-m", "venv", pathJoin oracleScriptDir.dirname "venv"]⟩ ∧
    strStartsWith (pathJoin oracleScriptDir.dirname "venv")
      (oracleScriptDir.dirname ++ "/") = true ∧
    (∀ op ∈ (runScript oracleScriptDir).1.fsOps,
      op = FsOp.write (pathJoin oracleScriptDir.dirname "download_models_temp.py") ∨
      op = FsOp.unlinkAttempt
        (pathJoin oracleScriptDir.dirname "download_models_temp.py")) ∧
    strStartsWith (pathJoin oracleScriptDir.dirname "download_models_temp.py")
      (oracleScriptDir.dirname ++ "/") = true :=
  venv_and_temp_under_script_dir oracleScriptDir "/usr/bin/python3" rfl

/-- A lookup result counts as failed-or-empty when the command errored
or its trimmed output is empty. -/
def failedOrEmpty : Except Unit String → Bool
  | Except.error _ => true
  | Except.ok s => jsTrim s == ""

/-- The where lookup counts as failed-or-empty when the command errored
or the trimmed first output line is empty. -/
def whereFailedOrEmpty : Except Unit String → Bool
  | Except.error _ => true
  | Except.ok s => jsTrim (firstLine s) == ""

/-- C7: the resolver tries the Unix lookups first, in order: a
successful nonempty which python3 wins outright; when which python3
fails, a successful nonempty which python wins; when both Unix lookups
fail or produce empty output the resolver falls back to where python
and takes its trimmed first output line; when that too fails or is
empty the resolver fails with the not-found error; and when the
resolver fails, the run exits 1 with no subprocess ever spawned, in
particular before any environment-creation subprocess. -/
theorem python_resolver_cascade (py3 py whereOut : Except Unit String) (o : Oracle) :
    (∀ s, py3 = Except.ok s → jsTrim s ≠ "" →
      getPythonPath py3 py whereOut = Except.ok (jsTrim s)) ∧
    (∀ s, py3 = Except.error () → py = Except.ok s → jsTrim s ≠ "" →
      getPythonPath py3 py whereOut = Except.ok (jsTrim s)) ∧
    (∀ s, failedOrEmpty py3 = true → failedOrEmpty py = true →
      whereOut = Except.ok s → jsTrim (firstLine s) ≠ "" →
      getPythonPath py3 py whereOut = Except.ok (jsTrim (firstLine s))) ∧
    (failedOrEmpty py3 = true → failedOrEmpty py = true →
      whereFailedOrEmpty whereOut = true →
      getPythonPath py3 py whereOut = Except.error notFoundMsg) ∧
    (∀ m, getPythonPath o.py3 o.py o.whereOut = Except.error m →
      (runScript o).1.spawns = [] ∧ (runScript o).2 = Outcome.exit 1) := by
  refine ⟨?_, ?_, ?_, ?_, ?_⟩
  · intro s hs hne
    subst hs
    simp [getPythonPath, hne]
  · intro s h3 hs hne
    subst h3
    subst hs
    simp [getPythonPath, hne]
  · intro s h3 hpy hw hne
    subst hw
    cases py3 with
    | ok t =>
        simp only [failedOrEmpty, beq_iff_eq] at h3
        simp [getPythonPath, tryWhere, h3, hne]
    | error u =>
        cases py with
        | error v => simp [getPythonPath, tryWhere, hne]
        | ok t =>
            simp only [failedOrEmpty, beq_iff_eq] at hpy
            simp [getPythonPath, tryWhere, hpy, hne]
  · intro h3 hpy hw
    have hwhere : tryWhere whereOut = Except.error notFoundMsg := by
      cases whereOut with
      | error u => rfl
      | ok s =>
          simp only [whereFailedOrEmpty, beq_iff_eq] at hw
          simp [tryWhere, hw]
    cases py3 with
    | ok t =>
        simp only [failedOrEmpty, beq_iff_eq] at h3
        simp [getPythonPath, h3, hwhere]
    | error u =>
        cases py with
        | error v => simp [getPythonPath, hwhere]
        | ok t =>
            simp only [failedOrEmpty, beq_iff_eq] at hpy
            simp [getPythonPath, hpy, hwhere]
  · intro m hm
    constructor <;> simp [runScript, hm, initState]

/-- Oracle for a host where no lookup command finds an interpreter. -/
def oracleNoPython : Oracle :=
  { py3 := Except.error ()
    py := Except.error ()
    whereOut := Except.error ()
    isWin32 := false
    dirname := "/app"
    events := fun _ => []
    pipedEvents := []
    unlinkThrows := false }

/-- Witness for C7: with all three lookups failing, the resolver
produces the not-found error and the run exits 1 with no spawns. -/
theorem python_resolver_cascade_witness :
    getPythonPath (Except.error ()) (Except.error ()) (Except.error ()) =
      Except.error notFoundMsg ∧
    (runScript oracleNoPython).1.spawns = [] ∧
    (runScript oracleNoPython).2 = Outcome.exit 1 := by
  refine ⟨?_, ?_, ?_⟩
  · exact (python_resolver_cascade (Except.error ()) (Except.error ())
      (Except.error ()) oracleNoPython).2.2.2.1 rfl rfl rfl
  · exact ((python_resolver_cascade (Except.error ()) (Except.error ())
      (Except.error ()) oracleNoPython).2.2.2.2 notFoundMsg rfl).1
  · exact ((python_resolver_cascade (Except.error ()) (Except.error ())
      (Except.error ()) oracleNoPython).2.2.2.2 notFoundMsg rfl).2

end NodeEasyOCR
